import Mathlib

/-!
# Verification of the public-service-queue-api core

Shallow embedding of the ticket-numbering and queue-advancement logic of
the repository (`backend/tickets/models.py`, `backend/tickets/views.py`,
`backend/services/models.py`) together with theorems settling the spec's
claims about it.

Conventions of the embedding:
* Django model rows become Lean structures; the database becomes an
  explicit `DB` value holding lists of rows in insertion order.
* ORM queries (`filter`, `order_by`, `first`) become list operations.
  SQL leaves the order of rows with equal sort keys unspecified; we
  determinize it as insertion order (the behaviour of a stable sort),
  and note at each use where that choice matters.
* Python's dynamic typing at the one place it matters (the `number`
  attribute read by the view's number-generation code) is made explicit
  by the `NumAttr` type; an uncaught Python exception becomes
  `Except.error`.
* HTTP endpoints become functions `DB → … → Result × DB`, returning the
  response kind and the database after the request (after any rollback).
-/

/-- The `status` choices of the `Ticket` model (`tickets/models.py`, `STATUS_CHOICES`). -/
inductive Status
  | pending
  | serving
  | completed
  | cancelled
deriving DecidableEq, Repr

/-- Embedded `created_at` timestamps: a calendar day plus a within-day instant.
`day` models `created_at__date`; ordering on the pair models ordering on
the full timestamp. -/
structure Timestamp where
  day : Nat
  tick : Nat
deriving DecidableEq, Repr

/-- Strict ordering of timestamps (lexicographic on day, then instant). -/
def tsLt (a b : Timestamp) : Bool :=
  a.day < b.day || (a.day == b.day && a.tick < b.tick)

/-- Non-strict ordering of timestamps. -/
def tsLe (a b : Timestamp) : Bool :=
  !(tsLt b a)

/-- The `Service` model (`services/models.py`).

The source model declares `name`, `description`, `is_active`,
`created_at`.  The `code` field is *modelled from the spec*: the views
in `tickets/views.py` read `service.code`, but no `Service` variant
declaring that attribute is under `src/`; the spec's data model gives a
Service "a short code used as a number prefix", which is what we embed. -/
structure Service where
  id : Nat
  name : String
  description : String
  code : String
  isActive : Bool
  createdAt : Timestamp
deriving DecidableEq, Repr

/-- The `Ticket` model (`tickets/models.py`): `citizen` and `service`
foreign keys, `number` a nullable positive-integer column, `status`,
`created_at`. -/
structure Ticket where
  id : Nat
  serviceId : Nat
  citizenId : Nat
  number : Option Nat
  status : Status
  createdAt : Timestamp
deriving DecidableEq, Repr

/-- The shared store: service and ticket rows in insertion order, plus
the next fresh primary key. -/
structure DB where
  services : List Service
  tickets : List Ticket
  nextId : Nat
deriving DecidableEq, Repr

/-- Lookup `Service.objects.get(id=service_id)` by primary key. -/
def findService (db : DB) (sid : Nat) : Option Service :=
  db.services.find? (fun s => s.id == sid)

/-- Lookup of a ticket row by primary key. -/
def findTicket (db : DB) (tid : Nat) : Option Ticket :=
  db.tickets.find? (fun t => t.id == tid)

/-- The numbering scope of the model's integer policy: tickets of the
same service created the same calendar day
(`Ticket.objects.filter(service=…, created_at__date=today)`). -/
def scopeTickets (db : DB) (svc day : Nat) : List Ticket :=
  db.tickets.filter (fun t => t.serviceId == svc && t.createdAt.day == day)

/-- Sort key of `order_by('-number')`: a NULL `number` sorts below every
integer (we determinize the store's NULL placement as NULLS LAST in the
descending scan). -/
def numberKey (t : Ticket) : Nat :=
  match t.number with
  | none => 0
  | some n => n + 1

/-- Query `order_by('-number').first()`: the row maximizing `numberKey`, ties
going to the earliest-inserted row (stable determinization). -/
def firstMaxByNumberKey : List Ticket → Option Ticket
  | [] => none
  | t :: ts =>
    match firstMaxByNumberKey ts with
    | none => some t
    | some u => if numberKey t < numberKey u then some u else some t

/-- Query `order_by('-created_at').first()`: the row with the latest
`created_at`, ties going to the earliest-inserted row. -/
def firstMaxByCreated : List Ticket → Option Ticket
  | [] => none
  | t :: ts =>
    match firstMaxByCreated ts with
    | none => some t
    | some u => if tsLt t.createdAt u.createdAt then some u else some t

/-- Query `order_by('created_at').first()`: the row with the earliest
`created_at`, ties going to the earliest-inserted row. -/
def firstMinByCreated : List Ticket → Option Ticket
  | [] => none
  | t :: ts =>
    match firstMinByCreated ts with
    | none => some t
    | some u => if tsLt u.createdAt t.createdAt then some u else some t

/-- The read phase of `Ticket.save` (`tickets/models.py` lines 29–34):
find the scope's last ticket by descending `number` and compute the next
number; `1` when the scope is empty.  When the scanned row's `number` is
NULL the source would evaluate `None + 1`, a `TypeError`, embedded as
`Except.error`. -/
def nextScopeNumber (db : DB) (svc day : Nat) : Except Unit Nat :=
  match firstMaxByNumberKey (scopeTickets db svc day) with
  | none => Except.ok 1
  | some t =>
    match t.number with
    | some m => Except.ok (m + 1)
    | none => Except.error ()

/-- The write phase of `Ticket.save` on a fresh row: the INSERT issued by
`super().save()`, appending a pending ticket carrying the computed
number. -/
def saveWrite (db : DB) (svc cid : Nat) (now : Timestamp) (n : Nat) :
    Ticket × DB :=
  let t : Ticket :=
    { id := db.nextId, serviceId := svc, citizenId := cid,
      number := some n, status := Status.pending, createdAt := now }
  (t, { db with tickets := db.tickets ++ [t], nextId := db.nextId + 1 })

/-- The `Ticket.save` path for a new ticket whose `number` is unset
(`tickets/models.py` lines 26–35): the `if not self.number` branch
assigns the scope's next number, then the row is inserted.  The
definition is literally read phase followed by write phase; the
unserialized gap between them is what the concurrency claims probe. -/
def modelSave (db : DB) (svc cid : Nat) (now : Timestamp) :
    Except Unit (Ticket × DB) :=
  match nextScopeNumber db svc now.day with
  | Except.error e => Except.error e
  | Except.ok n => Except.ok (saveWrite db svc cid now n)

/-- The `Ticket.save` path for an existing row whose `number` is already set: the
`if not self.number` guard is skipped and `super().save()` persists the
row's fields as they stand — in particular any `status` write, with no
transition validation anywhere in the model. -/
def saveStatus (db : DB) (tid : Nat) (s : Status) : DB :=
  { db with
    tickets := db.tickets.map
      (fun t => if t.id == tid then { t with status := s } else t) }

/-- The value of `last_ticket.number` as the Python expression in
`views.create` sees it: absent last ticket, SQL NULL (`None`), the
integer column's value, or — under the formatted-string policy the view
was written for — a string. -/
inductive NumAttr
  | noTicket
  | pyNone
  | pyInt (n : Nat)
  | pyStr (s : String)
deriving DecidableEq, Repr

/-- Python's `s.split('-')[-1]`.  `str.split` with a non-empty separator never
returns an empty list, so the `[-1]` index cannot fault; its last element
is exactly the suffix of `s` after the last `'-'` (the whole of `s` when
no `'-'` occurs), which is how we compute it: scanning left to right,
restarting the accumulated segment at each `'-'`. -/
def lastDashSegment (s : String) : String :=
  String.mk (s.toList.foldl (fun acc c => if c = '-' then [] else acc.concat c) [])

/-- Model of Python's `int(str)`: optional sign, then one or more ASCII
digits (whitespace tolerance and underscore separators are omitted; no
theorem below instantiates those edge forms). `none` is `ValueError`. -/
def pyInt? (s : String) : Option Int :=
  let cs := s.toList
  let signed : Int × List Char :=
    match cs with
    | '+' :: rest => (1, rest)
    | '-' :: rest => (-1, rest)
    | rest => (1, rest)
  if signed.2 ≠ [] ∧ signed.2.all Char.isDigit then
    some (signed.1 * Int.ofNat
      (signed.2.foldl (fun a c => 10 * a + (c.toNat - '0'.toNat)) 0))
  else
    none

/-- Python's `f"{n:04d}"`: decimal rendering zero-padded to width 4
(sign included in the width, as in Python). -/
def pad4 (n : Int) : String :=
  let digits : String := toString n.natAbs
  let width : Nat := if n < 0 then 3 else 4
  let padded : String :=
    if width ≤ digits.length then digits
    else String.mk (List.replicate (width - digits.length) '0') ++ digits
  if n < 0 then "-" ++ padded else padded

/-- The number-generation step of `views.create`
(`tickets/views.py` lines 62–69), with Python's dynamic typing explicit:

* no last ticket, `None`, `0` or `""` — the falsy branch — yields the
  starting value `"<code>-0001"`;
* a string splits on `'-'`; a suffix that `int()` rejects raises
  `ValueError`, caught by the `(ValueError, IndexError)` handler, which
  resets to `"<code>-0001"`; a parsed suffix is incremented and
  formatted;
* a (truthy) integer has no `.split` attribute: `AttributeError`, which
  the handler does not catch — embedded as `Except.error`. -/
def genTicketNumber (code : String) (a : NumAttr) : Except Unit String :=
  match a with
  | NumAttr.noTicket => Except.ok (code ++ "-0001")
  | NumAttr.pyNone => Except.ok (code ++ "-0001")
  | NumAttr.pyInt n =>
    if n == 0 then Except.ok (code ++ "-0001") else Except.error ()
  | NumAttr.pyStr s =>
    if s == "" then Except.ok (code ++ "-0001")
    else
      match pyInt? (lastDashSegment s) with
      | some m => Except.ok (code ++ "-" ++ pad4 (m + 1))
      | none => Except.ok (code ++ "-0001")

/-- The `number` attribute of an optional row, as Python sees it. -/
def ticketNumAttr : Option Ticket → NumAttr
  | none => NumAttr.noTicket
  | some t =>
    match t.number with
    | none => NumAttr.pyNone
    | some n => NumAttr.pyInt n

/-- Query `Ticket.objects.filter(service=service).order_by('-created_at').first()`
(`views.create` lines 58–60): the service's most recently created ticket,
all days. -/
def latestByCreated (db : DB) (sid : Nat) : Option Ticket :=
  firstMaxByCreated (db.tickets.filter (fun t => t.serviceId == sid))

/-- Response kinds of `views.create`.  `created` carries the generated
number string handed to `super().create(...)` (the serializer itself is
administrative plumbing outside the core). -/
inductive CreateResult
  | created (number : String)
  | missingService
  | notFoundSvc
  | dbError
  | internalError
deriving DecidableEq, Repr

/-- Endpoint `TicketViewSet.create` (`tickets/views.py` lines 38–93), returning
the response kind and the count of store-write attempts made.
`writeOutcomes` is the store's reply to each write the code chooses to
attempt (`true` = accepted, `false` = `DatabaseError`, e.g. a uniqueness
violation).  The source:

* missing `service` key → `ValidationError` (400);
* `Service.objects.get` miss → 404 — note: only existence is checked,
  `is_active` is never consulted;
* number generation as in `genTicketNumber`; an uncaught fault there
  lands in the generic `except Exception` → 500, before any write;
* otherwise exactly one write is attempted; a `DatabaseError` is
  answered with the 503 response immediately — there is no retry loop. -/
def viewCreate (db : DB) (serviceId? : Option Nat)
    (writeOutcomes : List Bool) : CreateResult × Nat :=
  match serviceId? with
  | none => (CreateResult.missingService, 0)
  | some sid =>
    match findService db sid with
    | none => (CreateResult.notFoundSvc, 0)
    | some svc =>
      match genTicketNumber svc.code (ticketNumAttr (latestByCreated db sid)) with
      | Except.error _ => (CreateResult.internalError, 0)
      | Except.ok num =>
        if writeOutcomes.headD false then (CreateResult.created num, 1)
        else (CreateResult.dbError, 1)

/-- Query `Ticket.objects.filter(service_id=…, status='pending')` in insertion
order. -/
def pendingFor (db : DB) (sid : Nat) : List Ticket :=
  db.tickets.filter
    (fun t => t.serviceId == sid && decide (t.status = Status.pending))

/-- The selection shared verbatim by `next_ticket` (lines 119–121) and
`serve_next` (lines 170–172): the pending ticket of the service with the
earliest `created_at`, ties falling to the store's scan order,
determinized as insertion order. -/
def nextPending (db : DB) (sid : Nat) : Option Ticket :=
  firstMinByCreated (pendingFor db sid)

/-- Response kinds of `views.next_ticket`. -/
inductive PeekResult
  | found (t : Ticket)
  | missingService
  | notFoundSvc
  | noPending
deriving DecidableEq, Repr

/-- Endpoint `TicketViewSet.next_ticket` (`tickets/views.py` lines 95–143): a
pure query — the handler contains no write — so the database is returned
unchanged. -/
def nextTicket (db : DB) (serviceId? : Option Nat) : PeekResult × DB :=
  match serviceId? with
  | none => (PeekResult.missingService, db)
  | some sid =>
    match findService db sid with
    | none => (PeekResult.notFoundSvc, db)
    | some _ =>
      match nextPending db sid with
      | none => (PeekResult.noPending, db)
      | some t => (PeekResult.found t, db)

/-- The concrete fields of the `Ticket` model, for Django's
`update_fields` validation: the declared columns plus the implicit `id`.
No `updated_at` exists. -/
def ticketFields : List String :=
  ["id", "citizen", "service", "number", "status", "created_at"]

/-- Django's `Model.save(update_fields=…)` first checks every named field against
the model's concrete fields and raises `ValueError` otherwise. -/
def updateFieldsOk (fs : List String) : Bool :=
  fs.all (fun f => ticketFields.contains f)

/-- Model validation `full_clean` on a status write: the only model-level validation is
that the value is among `STATUS_CHOICES`. -/
def statusChoices : List Status :=
  [Status.pending, Status.serving, Status.completed, Status.cancelled]

/-- Response kinds of `views.serve_next`. -/
inductive ServeResult
  | served (t : Ticket)
  | missingService
  | notFoundSvc
  | noPending
  | invalidTransition
  | dbError
  | internalError
deriving DecidableEq, Repr

/-- Endpoint `TicketViewSet.serve_next` (`tickets/views.py` lines 145–215):
select the oldest pending ticket, set `status = 'serving'`, `full_clean`,
then `save(update_fields=['status', 'updated_at'])`.  Because
`updated_at` is not a field of the model, that save raises `ValueError`,
which is neither the `DjangoValidationError` nor the `DatabaseError` the
handlers catch; it escapes the `transaction.atomic()` block — rolling
the transaction back — and lands in the generic `except Exception`,
answered 500 with the store untouched. -/
def serveNext (db : DB) (serviceId? : Option Nat) : ServeResult × DB :=
  match serviceId? with
  | none => (ServeResult.missingService, db)
  | some sid =>
    match findService db sid with
    | none => (ServeResult.notFoundSvc, db)
    | some _ =>
      match nextPending db sid with
      | none => (ServeResult.noPending, db)
      | some t =>
        if statusChoices.contains Status.serving then
          if updateFieldsOk ["status", "updated_at"] then
            (ServeResult.served { t with status := Status.serving },
              saveStatus db t.id Status.serving)
          else (ServeResult.internalError, db)
        else (ServeResult.invalidTransition, db)

/-- Sequential ticket creations through `Ticket.save`: one `modelSave`
per timestamp, collecting the assigned numbers in order. -/
def runCreations (db : DB) (svc cid : Nat) :
    List Timestamp → Except Unit (List Nat × DB)
  | [] => Except.ok ([], db)
  | now :: rest =>
    match modelSave db svc cid now with
    | Except.error e => Except.error e
    | Except.ok (t, db') =>
      match runCreations db' svc cid rest with
      | Except.error e => Except.error e
      | Except.ok (ns, db'') => Except.ok ((t.number.getD 0) :: ns, db'')

/-- The numbers of a scope's tickets, in insertion order. -/
def scopeNumbers (db : DB) (svc day : Nat) : List Nat :=
  (scopeTickets db svc day).map (fun t => t.number.getD 0)

/-! ## Basic lemmas about the embedded orderings and scans -/

lemma tsLt_iff (a b : Timestamp) :
    tsLt a b = true ↔ a.day < b.day ∨ (a.day = b.day ∧ a.tick < b.tick) := by
  simp [tsLt]

lemma tsLe_iff (a b : Timestamp) :
    tsLe a b = true ↔ a.day < b.day ∨ (a.day = b.day ∧ a.tick ≤ b.tick) := by
  simp [tsLe, tsLt]
  omega

lemma tsLe_refl (a : Timestamp) : tsLe a a = true := by
  simp [tsLe_iff]

lemma tsLt_le {a b : Timestamp} (h : tsLt a b = true) : tsLe a b = true := by
  rw [tsLt_iff] at h
  rw [tsLe_iff]
  omega

lemma tsLe_of_not_lt {a b : Timestamp} (h : ¬ tsLt a b = true) : tsLe b a = true := by
  simp [tsLe, h]

lemma tsLe_trans {a b c : Timestamp} (h1 : tsLe a b = true) (h2 : tsLe b c = true) :
    tsLe a c = true := by
  rw [tsLe_iff] at h1 h2 ⊢
  omega

lemma firstMinByCreated_eq_none {l : List Ticket} :
    firstMinByCreated l = none ↔ l = [] := by
  cases l with
  | nil => simp [firstMinByCreated]
  | cons a as =>
    simp only [firstMinByCreated]
    cases firstMinByCreated as with
    | none => simp
    | some u =>
      by_cases h : tsLt u.createdAt a.createdAt = true <;> simp [h]

lemma firstMinByCreated_mem :
    ∀ {l : List Ticket} {t : Ticket}, firstMinByCreated l = some t → t ∈ l := by
  intro l
  induction l with
  | nil => intro t h; simp [firstMinByCreated] at h
  | cons a as ih =>
    intro t h
    cases has : firstMinByCreated as with
    | none =>
      simp only [firstMinByCreated, has] at h
      cases h
      exact List.mem_cons_self _ _
    | some u =>
      simp only [firstMinByCreated, has] at h
      by_cases hlt : tsLt u.createdAt a.createdAt = true
      · rw [if_pos hlt] at h
        cases h
        exact List.mem_cons_of_mem _ (ih has)
      · rw [if_neg hlt] at h
        cases h
        exact List.mem_cons_self _ _

lemma firstMinByCreated_le :
    ∀ {l : List Ticket} {t : Ticket}, firstMinByCreated l = some t →
      ∀ u ∈ l, tsLe t.createdAt u.createdAt = true := by
  intro l
  induction l with
  | nil => intro t h; simp [firstMinByCreated] at h
  | cons a as ih =>
    intro t h u hu
    cases has : firstMinByCreated as with
    | none =>
      simp only [firstMinByCreated, has] at h
      cases h
      rcases List.mem_cons.mp hu with rfl | hu2
      · exact tsLe_refl _
      · rw [firstMinByCreated_eq_none.mp has] at hu2
        simp at hu2
    | some v =>
      simp only [firstMinByCreated, has] at h
      by_cases hlt : tsLt v.createdAt a.createdAt = true
      · rw [if_pos hlt] at h
        cases h
        rcases List.mem_cons.mp hu with rfl | hu2
        · exact tsLt_le hlt
        · exact ih has u hu2
      · rw [if_neg hlt] at h
        cases h
        rcases List.mem_cons.mp hu with rfl | hu2
        · exact tsLe_refl _
        · exact tsLe_trans (tsLe_of_not_lt hlt) (ih has u hu2)

lemma firstMaxByNumberKey_mem :
    ∀ {l : List Ticket} {t : Ticket}, firstMaxByNumberKey l = some t → t ∈ l := by
  intro l
  induction l with
  | nil => intro t h; simp [firstMaxByNumberKey] at h
  | cons a as ih =>
    intro t h
    cases has : firstMaxByNumberKey as with
    | none =>
      simp only [firstMaxByNumberKey, has] at h
      cases h
      exact List.mem_cons_self _ _
    | some u =>
      simp only [firstMaxByNumberKey, has] at h
      by_cases hlt : numberKey a < numberKey u
      · rw [if_pos hlt] at h
        cases h
        exact List.mem_cons_of_mem _ (ih has)
      · rw [if_neg hlt] at h
        cases h
        exact List.mem_cons_self _ _

lemma firstMaxByNumberKey_none_iff {l : List Ticket} :
    firstMaxByNumberKey l = none ↔ l = [] := by
  cases l with
  | nil => simp [firstMaxByNumberKey]
  | cons a as =>
    simp only [firstMaxByNumberKey]
    cases firstMaxByNumberKey as with
    | none => simp
    | some u =>
      by_cases h : numberKey a < numberKey u <;> simp [h]

lemma firstMaxByNumberKey_ub :
    ∀ {l : List Ticket} {t : Ticket}, firstMaxByNumberKey l = some t →
      ∀ u ∈ l, numberKey u ≤ numberKey t := by
  intro l
  induction l with
  | nil => intro t h; simp [firstMaxByNumberKey] at h
  | cons a as ih =>
    intro t h u hu
    cases has : firstMaxByNumberKey as with
    | none =>
      simp only [firstMaxByNumberKey, has] at h
      cases h
      rcases List.mem_cons.mp hu with rfl | hu2
      · exact Nat.le_refl _
      · rw [firstMaxByNumberKey_none_iff.mp has] at hu2
        simp at hu2
    | some v =>
      simp only [firstMaxByNumberKey, has] at h
      by_cases hlt : numberKey a < numberKey v
      · rw [if_pos hlt] at h
        cases h
        rcases List.mem_cons.mp hu with rfl | hu2
        · exact Nat.le_of_lt hlt
        · exact ih has u hu2
      · rw [if_neg hlt] at h
        cases h
        rcases List.mem_cons.mp hu with rfl | hu2
        · exact Nat.le_refl _
        · exact Nat.le_trans (ih has u hu2) (Nat.le_of_not_lt hlt)

/-- The `serve_next` endpoint never commits a write: every branch hands back the store
it was given (the one mutating branch is behind the `update_fields`
validation, which always fails on the phantom `updated_at`). -/
lemma serveNext_state (db : DB) (sid? : Option Nat) : (serveNext db sid?).2 = db := by
  cases sid? with
  | none => rfl
  | some sid =>
    simp only [serveNext]
    cases findService db sid with
    | none => rfl
    | some s =>
      cases nextPending db sid with
      | none => rfl
      | some t =>
        have h1 : statusChoices.contains Status.serving = true := by decide
        have h2 : updateFieldsOk ["status", "updated_at"] = false := by decide
        simp [h1, h2]
        split <;> rfl

/-! ## Claim theorems -/

/-- C7: the `peek_next` query (`next_ticket`) never mutates any stored record, and
repeated calls without an intervening mutation return the same result:
the endpoint hands back the store unchanged, and a second call on that
store answers identically. -/
theorem peek_next_pure_and_stable (db : DB) (sid? : Option Nat) :
    (nextTicket db sid?).2 = db ∧
    nextTicket ((nextTicket db sid?).2) sid? = nextTicket db sid? := by
  have h2 : (nextTicket db sid?).2 = db := by
    cases sid? with
    | none => rfl
    | some sid =>
      simp only [nextTicket]
      cases findService db sid with
      | none => rfl
      | some s =>
        cases nextPending db sid with
        | none => rfl
        | some t => rfl
  exact ⟨h2, by rw [h2]⟩

/-- C9: `serve_next` persists with
`save(update_fields=['status', 'updated_at'])`, but the `Ticket` model
has no `updated_at` field, so the save raises, the transaction rolls
back, and the call answers the generic 500 with the store — in
particular the selected ticket's `pending` status — unchanged; no call
ever returns a successfully claimed ticket. -/
theorem serve_next_save_faults_and_rolls_back (db : DB) (sid? : Option Nat) :
    ((serveNext db sid?).2 = db ∧
      ∀ t, (serveNext db sid?).1 ≠ ServeResult.served t) ∧
    (∀ sid t, sid? = some sid → findService db sid ≠ none →
      nextPending db sid = some t →
      (serveNext db sid?).1 = ServeResult.internalError) := by
  constructor
  · refine ⟨serveNext_state db sid?, ?_⟩
    intro t
    cases sid? with
    | none => simp [serveNext]
    | some sid =>
      simp only [serveNext]
      cases findService db sid with
      | none => simp
      | some s =>
        cases nextPending db sid with
        | none => simp
        | some u =>
          have h2 : updateFieldsOk ["status", "updated_at"] = false := by decide
          have h3 : Status.serving ∈ statusChoices := by decide
          simp [h2, h3]
  · intro sid t hsid hfs hnp
    subst hsid
    simp only [serveNext]
    cases hfs2 : findService db sid with
    | none => exact absurd hfs2 hfs
    | some s =>
      rw [hnp]
      have h2 : updateFieldsOk ["status", "updated_at"] = false := by decide
      have h3 : Status.serving ∈ statusChoices := by decide
      simp [h2, h3]

/-- Witness for C9: a concrete store with an existing service and one
pending ticket, on which `serve_next` answers the generic 500. -/
theorem serve_next_save_faults_and_rolls_back_witness :
    (serveNext ⟨[⟨1, "Passport", "d", "PS", true, ⟨0, 0⟩⟩],
        [⟨1, 1, 1, some 1, Status.pending, ⟨0, 5⟩⟩], 2⟩ (some 1)).1 =
      ServeResult.internalError :=
  (serve_next_save_faults_and_rolls_back
      ⟨[⟨1, "Passport", "d", "PS", true, ⟨0, 0⟩⟩],
        [⟨1, 1, 1, some 1, Status.pending, ⟨0, 5⟩⟩], 2⟩ (some 1)).2 1
    ⟨1, 1, 1, some 1, Status.pending, ⟨0, 5⟩⟩ rfl (by decide) (by decide)

/-- C10: when the service already has a ticket with an assigned (hence
positive) integer `number`, the view's number-generation step calls
`.split` on that integer; the resulting `AttributeError` is not caught by
the `(ValueError, IndexError)` handler, so the request takes the generic
500 branch before any write is attempted and no formatted number is
assigned. -/
theorem create_splits_integer_number_faults (db : DB) (sid : Nat)
    (svc : Service) (t : Ticket) (n : Nat) (outs : List Bool)
    (hs : findService db sid = some svc)
    (hl : latestByCreated db sid = some t)
    (hn : t.number = some n) (hpos : 0 < n) :
    viewCreate db (some sid) outs = (CreateResult.internalError, 0) := by
  have hne : n ≠ 0 := Nat.pos_iff_ne_zero.mp hpos
  simp only [viewCreate, hs, hl, ticketNumAttr, hn]
  simp [genTicketNumber, hne]

/-- Witness for C10: a concrete store whose latest ticket carries the
integer number 7; creation answers the generic 500. -/
theorem create_splits_integer_number_faults_witness :
    viewCreate ⟨[⟨2, "Renewal", "d", "RN", true, ⟨0, 0⟩⟩],
        [⟨1, 2, 1, some 7, Status.pending, ⟨1, 0⟩⟩], 2⟩ (some 2) [true] =
      (CreateResult.internalError, 0) :=
  create_splits_integer_number_faults
    ⟨[⟨2, "Renewal", "d", "RN", true, ⟨0, 0⟩⟩],
      [⟨1, 2, 1, some 7, Status.pending, ⟨1, 0⟩⟩], 2⟩ 2
    ⟨2, "Renewal", "d", "RN", true, ⟨0, 0⟩⟩
    ⟨1, 2, 1, some 7, Status.pending, ⟨1, 0⟩⟩ 7 [true]
    (by decide) (by decide) rfl (by decide)

/-- C6: under the formatted-string numbering policy, a stored number
whose suffix does not parse as an integer makes `int(...)` raise
`ValueError`, which the handler catches by resetting to the scope's
starting value `"<code>-0001>"` — the fault is not propagated. -/
theorem malformed_suffix_resets_numbering (code s : String)
    (hbad : pyInt? (lastDashSegment s) = none) :
    genTicketNumber code (NumAttr.pyStr s) = Except.ok (code ++ "-0001") := by
  simp only [genTicketNumber]
  by_cases he : s = ""
  · simp [he]
  · have he2 : (s == "") = false := by simpa using he
    simp [he2, hbad]

/-- Witness for C6: the malformed stored number `"PS-00XA"` resets the
sequence to `"PS-0001"`. -/
theorem malformed_suffix_resets_numbering_witness :
    pyInt? (lastDashSegment "PS-00XA") = none ∧
    genTicketNumber "PS" (NumAttr.pyStr "PS-00XA") = Except.ok "PS-0001" :=
  ⟨by decide, malformed_suffix_resets_numbering "PS" "PS-00XA" (by decide)⟩

/-- C4 (counterexample): creation against an existing but *inactive*
service does not fail with NotFound — the view checks only existence,
never `is_active` — so the request proceeds and a ticket number is
generated. -/
theorem inactive_service_creation_not_notfound :
    viewCreate ⟨[⟨1, "Visa", "d", "VS", false, ⟨0, 0⟩⟩], [], 1⟩ (some 1) [true] =
      (CreateResult.created "VS-0001", 1) ∧
    CreateResult.created "VS-0001" ≠ CreateResult.notFoundSvc := by
  exact ⟨by decide, by decide⟩

/-- C4 (amended): creation fails with NotFound exactly when the
referenced service does not exist; the `is_active` flag of an existing
service is never consulted, so such a request is never answered 404. -/
theorem creation_notfound_iff_service_absent (db : DB) (sid : Nat)
    (outs : List Bool) :
    (findService db sid = none →
      viewCreate db (some sid) outs = (CreateResult.notFoundSvc, 0)) ∧
    (∀ svc, findService db sid = some svc →
      (viewCreate db (some sid) outs).1 ≠ CreateResult.notFoundSvc) := by
  constructor
  · intro h
    simp [viewCreate, h]
  · intro svc h
    simp only [viewCreate, h]
    cases hg : genTicketNumber svc.code (ticketNumAttr (latestByCreated db sid)) with
    | error e => simp
    | ok num => cases houts : outs.headD false <;> simp [houts]

/-- Witness for C4 (amended), at a store holding one active service. -/
theorem creation_notfound_iff_service_absent_witness :
    (viewCreate ⟨[⟨3, "Info", "d", "IN", true, ⟨0, 0⟩⟩], [], 1⟩ (some 3) [true]).1 ≠
      CreateResult.notFoundSvc :=
  (creation_notfound_iff_service_absent
      ⟨[⟨3, "Info", "d", "IN", true, ⟨0, 0⟩⟩], [], 1⟩ 3 [true]).2
    ⟨3, "Info", "d", "IN", true, ⟨0, 0⟩⟩ (by decide)

lemma find_map_status (l : List Ticket) (tid : Nat) (s : Status) :
    (l.map (fun t => if t.id == tid then { t with status := s } else t)).find?
        (fun t => t.id == tid) =
      (l.find? (fun t => t.id == tid)).map (fun t => { t with status := s }) := by
  induction l with
  | nil => rfl
  | cons a as ih =>
    simp only [List.map_cons]
    by_cases h : a.id = tid
    · have hb : (a.id == tid) = true := by simpa using h
      rw [if_pos hb, List.find?_cons, List.find?_cons]
      simp [hb]
    · have hb : ¬ (a.id == tid) = true := by simpa using h
      have hbf : (a.id == tid) = false := by simpa using hb
      rw [if_neg hb, List.find?_cons, List.find?_cons]
      simp only [hbf]
      exact ih

/-- C5 (counterexample): a `completed` ticket is written back to
`pending` by `Ticket.save` with no failure — the store simply records
the new status; nothing raises an InvalidTransition error. -/
theorem completed_ticket_repending_succeeds :
    findTicket (saveStatus ⟨[⟨1, "Permit", "d", "PM", true, ⟨0, 0⟩⟩],
        [⟨1, 1, 1, some 1, Status.completed, ⟨0, 1⟩⟩], 2⟩ 1 Status.pending) 1 =
      some ⟨1, 1, 1, some 1, Status.pending, ⟨0, 1⟩⟩ := by
  decide

/-- C5 (amended): no transition validation exists — the model-level save
persists *any* status write on *any* ticket, terminal or not, always
succeeding; the state machine of the spec is not enforced by any
operation. -/
theorem save_persists_any_status (db : DB) (tid : Nat) (s : Status) :
    findTicket (saveStatus db tid s) tid =
      (findTicket db tid).map (fun t => { t with status := s }) := by
  simp only [findTicket, saveStatus]
  exact find_map_status db.tickets tid s

/-- C2 (counterexample): with two pending tickets of the same service
whose `created_at` are equal, the query orders by `created_at` alone, so
the tie falls to the store's scan order (insertion order here), *not* to
the lowest `number`: the ticket numbered 5 is selected although a
co-pending ticket with the same `created_at` is numbered 3. -/
theorem tie_selects_by_insertion_not_number :
    nextPending ⟨[⟨1, "Desk", "d", "DK", true, ⟨0, 0⟩⟩],
        [⟨1, 1, 1, some 5, Status.pending, ⟨0, 10⟩⟩,
         ⟨2, 1, 2, some 3, Status.pending, ⟨0, 10⟩⟩], 3⟩ 1 =
      some ⟨1, 1, 1, some 5, Status.pending, ⟨0, 10⟩⟩ ∧
    (⟨2, 1, 2, some 3, Status.pending, ⟨0, 10⟩⟩ : Ticket) ∈
      pendingFor ⟨[⟨1, "Desk", "d", "DK", true, ⟨0, 0⟩⟩],
        [⟨1, 1, 1, some 5, Status.pending, ⟨0, 10⟩⟩,
         ⟨2, 1, 2, some 3, Status.pending, ⟨0, 10⟩⟩], 3⟩ 1 ∧
    (3 : Nat) < 5 := by
  exact ⟨by decide, by decide, by decide⟩

/-- C2 (amended): endpoints `next_ticket` and `serve_next` run the identical
selection (`nextPending`): the selected ticket is a pending ticket of
the service with the earliest `created_at` among them, ties falling to
insertion order rather than to lowest `number`; and since the claim step
of `serve_next` always fails (see C9), the store is unchanged and an
immediately following selection returns the very same ticket. -/
theorem selection_earliest_created (db : DB) (sid : Nat) (t : Ticket)
    (h : nextPending db sid = some t) :
    t ∈ db.tickets ∧ t.status = Status.pending ∧ t.serviceId = sid ∧
    (∀ u ∈ db.tickets, u.status = Status.pending → u.serviceId = sid →
      tsLe t.createdAt u.createdAt = true) ∧
    (serveNext db (some sid)).2 = db ∧
    nextPending ((serveNext db (some sid)).2) sid = some t := by
  have hmem : t ∈ pendingFor db sid := firstMinByCreated_mem h
  have hmem2 := List.mem_filter.mp hmem
  have hprops : t.serviceId = sid ∧ t.status = Status.pending := by
    have := hmem2.2
    simp only [Bool.and_eq_true, beq_iff_eq, decide_eq_true_eq] at this
    exact this
  refine ⟨hmem2.1, hprops.2, hprops.1, ?_, serveNext_state db (some sid), ?_⟩
  · intro u hu hupend husvc
    exact firstMinByCreated_le h u
      (List.mem_filter.mpr ⟨hu, by simp [hupend, husvc]⟩)
  · rw [serveNext_state db (some sid)]
    exact h

/-- Witness for C2 (amended) at a concrete two-ticket store: the earlier
created pending ticket is selected, and re-selecting after `serve_next`
gives it again. -/
theorem selection_earliest_created_witness :
    (⟨1, 1, 1, some 1, Status.pending, ⟨0, 3⟩⟩ : Ticket) ∈
      (⟨[⟨1, "Desk", "d", "DK", true, ⟨0, 0⟩⟩],
        [⟨1, 1, 1, some 1, Status.pending, ⟨0, 3⟩⟩,
         ⟨2, 1, 2, some 2, Status.pending, ⟨0, 9⟩⟩], 3⟩ : DB).tickets ∧
    (⟨1, 1, 1, some 1, Status.pending, ⟨0, 3⟩⟩ : Ticket).status = Status.pending ∧
    (⟨1, 1, 1, some 1, Status.pending, ⟨0, 3⟩⟩ : Ticket).serviceId = 1 ∧
    (∀ u ∈ (⟨[⟨1, "Desk", "d", "DK", true, ⟨0, 0⟩⟩],
        [⟨1, 1, 1, some 1, Status.pending, ⟨0, 3⟩⟩,
         ⟨2, 1, 2, some 2, Status.pending, ⟨0, 9⟩⟩], 3⟩ : DB).tickets,
      u.status = Status.pending → u.serviceId = 1 →
      tsLe (⟨1, 1, 1, some 1, Status.pending, ⟨0, 3⟩⟩ : Ticket).createdAt
        u.createdAt = true) ∧
    (serveNext ⟨[⟨1, "Desk", "d", "DK", true, ⟨0, 0⟩⟩],
        [⟨1, 1, 1, some 1, Status.pending, ⟨0, 3⟩⟩,
         ⟨2, 1, 2, some 2, Status.pending, ⟨0, 9⟩⟩], 3⟩ (some 1)).2 =
      ⟨[⟨1, "Desk", "d", "DK", true, ⟨0, 0⟩⟩],
        [⟨1, 1, 1, some 1, Status.pending, ⟨0, 3⟩⟩,
         ⟨2, 1, 2, some 2, Status.pending, ⟨0, 9⟩⟩], 3⟩ ∧
    nextPending (serveNext ⟨[⟨1, "Desk", "d", "DK", true, ⟨0, 0⟩⟩],
        [⟨1, 1, 1, some 1, Status.pending, ⟨0, 3⟩⟩,
         ⟨2, 1, 2, some 2, Status.pending, ⟨0, 9⟩⟩], 3⟩ (some 1)).2 1 =
      some ⟨1, 1, 1, some 1, Status.pending, ⟨0, 3⟩⟩ :=
  selection_earliest_created
    ⟨[⟨1, "Desk", "d", "DK", true, ⟨0, 0⟩⟩],
      [⟨1, 1, 1, some 1, Status.pending, ⟨0, 3⟩⟩,
       ⟨2, 1, 2, some 2, Status.pending, ⟨0, 9⟩⟩], 3⟩ 1
    ⟨1, 1, 1, some 1, Status.pending, ⟨0, 3⟩⟩ (by decide)

lemma numberKey_none {t : Ticket} (h : t.number = none) : numberKey t = 0 := by
  simp [numberKey, h]

lemma numberKey_some {t : Ticket} {n : Nat} (h : t.number = some n) :
    numberKey t = n + 1 := by
  simp [numberKey, h]

lemma nextScopeNumber_of_range (db : DB) (svc day k : Nat)
    (h : scopeNumbers db svc day = List.range' 1 k) :
    nextScopeNumber db svc day = Except.ok (k + 1) := by
  cases hmax : firstMaxByNumberKey (scopeTickets db svc day) with
  | none =>
    simp only [nextScopeNumber, hmax]
    have hempty : scopeTickets db svc day = [] :=
      firstMaxByNumberKey_none_iff.mp hmax
    have hnil : List.range' 1 k = [] := by
      rw [← h]
      simp [scopeNumbers, hempty]
    have hk : k = 0 := by
      cases k with
      | zero => rfl
      | succ m => simp [List.range'] at hnil
    simp [hk]
  | some t =>
    simp only [nextScopeNumber, hmax]
    have htmem : t ∈ scopeTickets db svc day := firstMaxByNumberKey_mem hmax
    have hin : ∀ u ∈ scopeTickets db svc day,
        1 ≤ u.number.getD 0 ∧ u.number.getD 0 < 1 + k := by
      intro u hu
      have hm : u.number.getD 0 ∈ List.range' 1 k := by
        rw [← h]
        exact List.mem_map_of_mem _ hu
      exact List.mem_range'_1.mp hm
    have hkpos : 0 < k := by
      rcases hin t htmem with ⟨h1, h2⟩
      omega
    have hkmem : ∃ u ∈ scopeTickets db svc day, u.number.getD 0 = k := by
      have hm : k ∈ List.range' 1 k := List.mem_range'_1.mpr ⟨hkpos, by omega⟩
      rw [← h] at hm
      rcases List.mem_map.mp hm with ⟨u, hu, hq⟩
      exact ⟨u, hu, hq⟩
    rcases hkmem with ⟨u, hu, huk⟩
    have hukey : numberKey u = k + 1 := by
      cases hn : u.number with
      | none =>
        rw [hn] at huk
        simp at huk
        omega
      | some m =>
        rw [hn] at huk
        simp at huk
        rw [numberKey_some hn]
        omega
    have hub : numberKey u ≤ numberKey t := firstMaxByNumberKey_ub hmax u hu
    have htB : numberKey t ≤ k + 1 := by
      cases hn : t.number with
      | none =>
        rw [numberKey_none hn]
        omega
      | some m =>
        rcases hin t htmem with ⟨h1, h2⟩
        rw [hn] at h1 h2
        simp at h1 h2
        rw [numberKey_some hn]
        omega
    cases hn : t.number with
    | none =>
      rw [numberKey_none hn] at hub
      exfalso
      omega
    | some m =>
      rw [numberKey_some hn] at hub htB
      have hm : m = k := by omega
      subst hm
      rfl

lemma scopeTickets_saveWrite (db : DB) (svc cid day : Nat) (now : Timestamp)
    (n : Nat) (hday : now.day = day) :
    scopeTickets (saveWrite db svc cid now n).2 svc day =
      scopeTickets db svc day ++ [(saveWrite db svc cid now n).1] := by
  simp [scopeTickets, saveWrite, List.filter_append, hday]

lemma runCreations_range (svc cid day : Nat) :
    ∀ (ticks : List Nat) (db : DB) (k : Nat),
      scopeNumbers db svc day = List.range' 1 k →
      ∃ db', runCreations db svc cid (ticks.map (fun x => ⟨day, x⟩)) =
          Except.ok (List.range' (k + 1) ticks.length, db') ∧
        scopeNumbers db' svc day = List.range' 1 (k + ticks.length) := by
  intro ticks
  induction ticks with
  | nil =>
    intro db k h
    exact ⟨db, by simp [runCreations], by simpa using h⟩
  | cons x xs ih =>
    intro db k h
    have hnum : nextScopeNumber db svc day = Except.ok (k + 1) :=
      nextScopeNumber_of_range db svc day k h
    obtain ⟨t2, db2, hpair⟩ :
        ∃ t2 db2, saveWrite db svc cid ⟨day, x⟩ (k + 1) = (t2, db2) :=
      ⟨_, _, rfl⟩
    have hdb2 : (saveWrite db svc cid ⟨day, x⟩ (k + 1)).2 = db2 := by rw [hpair]
    have ht2p : (saveWrite db svc cid ⟨day, x⟩ (k + 1)).1 = t2 := by rw [hpair]
    have hsave : modelSave db svc cid ⟨day, x⟩ = Except.ok (t2, db2) := by
      simp [modelSave, hnum, hpair]
    have ht2 : t2.number = some (k + 1) := by
      rw [← ht2p]
      rfl
    have hscope : scopeNumbers db2 svc day = List.range' 1 (k + 1) := by
      have hsw := scopeTickets_saveWrite db svc cid day ⟨day, x⟩ (k + 1) rfl
      rw [hdb2, ht2p] at hsw
      unfold scopeNumbers at h ⊢
      rw [hsw, List.map_append, h]
      have h1 : t2.number.getD 0 = k + 1 := by rw [ht2]; rfl
      rw [List.range'_concat]
      simp [h1, Nat.add_comm]
    rcases ih db2 (k + 1) hscope with ⟨db', hrun, hfin⟩
    refine ⟨db', ?_, ?_⟩
    · simp only [List.map_cons, runCreations, hsave, hrun]
      rw [ht2]
      rfl
    · rw [List.length_cons, show k + (xs.length + 1) = k + 1 + xs.length by omega]
      exact hfin

/-- C1 (amended): under the integer policy actually implemented by
`Ticket.save`, sequential creations in one numbering scope (service and
day), starting from an empty scope, assign the numbers `1, 2, …, n` in
order — strictly increasing, gap-free, each the prior number plus one. -/
theorem sequential_numbers_contiguous (db : DB) (svc cid day : Nat)
    (ticks : List Nat) (hempty : scopeTickets db svc day = []) :
    ∃ db', runCreations db svc cid (ticks.map (fun x => ⟨day, x⟩)) =
      Except.ok (List.range' 1 ticks.length, db') := by
  have h0 : scopeNumbers db svc day = List.range' 1 0 := by
    simp [scopeNumbers, hempty]
  rcases runCreations_range svc cid day ticks db 0 h0 with ⟨db', h1, _⟩
  exact ⟨db', h1⟩

/-- Witness for C1 (amended): three creations on a fresh scope assign
numbers 1, 2, 3. -/
theorem sequential_numbers_contiguous_witness :
    ∃ db', runCreations ⟨[⟨1, "Licence", "d", "LC", true, ⟨0, 0⟩⟩], [], 1⟩ 1 1
        ([0, 1, 2].map (fun x => (⟨0, x⟩ : Timestamp))) =
      Except.ok ([1, 2, 3], db') := by
  rcases sequential_numbers_contiguous
      ⟨[⟨1, "Licence", "d", "LC", true, ⟨0, 0⟩⟩], [], 1⟩ 1 1 0 [0, 1, 2]
      (by decide) with ⟨db', h⟩
  exact ⟨db', h⟩

/-- C1 (counterexample): under the string policy implemented by the
view, a second sequential creation does not assign the prior number plus
one — with a stored (integer) prior number the generation step faults
and the request is answered 500, so the two-creation sequence does not
produce a contiguous numbered pair. -/
theorem string_policy_second_creation_fails :
    viewCreate ⟨[⟨1, "Licence", "d", "LC", true, ⟨0, 0⟩⟩],
        [⟨1, 1, 1, some 1, Status.pending, ⟨0, 0⟩⟩], 2⟩ (some 1) [true] =
      (CreateResult.internalError, 0) ∧
    CreateResult.internalError ≠ CreateResult.created "LC-0002" := by
  exact ⟨by decide, by decide⟩

/-- C3 (counterexample): the read-increment-write in `Ticket.save` is
not serialized, and the model declares no uniqueness constraint on
(service, day, number), so the interleaving read₁ read₂ write₁ write₂ of
two concurrent creations — both reads observing the empty scope, both
writes then inserting — leaves two tickets of the same scope carrying
the same number 1. -/
theorem interleaved_creations_duplicate_number :
    modelSave ⟨[⟨1, "Kiosk", "d", "KS", true, ⟨0, 0⟩⟩], [], 1⟩ 1 1 ⟨0, 0⟩ =
      Except.ok (saveWrite ⟨[⟨1, "Kiosk", "d", "KS", true, ⟨0, 0⟩⟩], [], 1⟩ 1 1 ⟨0, 0⟩ 1) ∧
    nextScopeNumber ⟨[⟨1, "Kiosk", "d", "KS", true, ⟨0, 0⟩⟩], [], 1⟩ 1 0 =
      Except.ok 1 ∧
    ((saveWrite ((saveWrite ⟨[⟨1, "Kiosk", "d", "KS", true, ⟨0, 0⟩⟩], [], 1⟩
        1 1 ⟨0, 0⟩ 1).2) 1 2 ⟨0, 1⟩ 1).2).tickets.map
        (fun t => (t.serviceId, t.createdAt.day, t.number)) =
      [(1, 0, some 1), (1, 0, some 1)] := by
  exact ⟨rfl, rfl, by decide⟩

/-- C3 (amended): sequentially — with each read-increment-write run to
completion before the next begins — duplicates cannot arise: the number
`modelSave` assigns differs from the number of every ticket already in
the scope.  Under concurrent interleaving the code provides no such
guarantee (see the counterexample). -/
theorem sequential_creation_number_fresh (db : DB) (svc cid : Nat)
    (now : Timestamp) (t : Ticket) (db' : DB)
    (h : modelSave db svc cid now = Except.ok (t, db')) :
    ∀ u ∈ db.tickets, u.serviceId = svc → u.createdAt.day = now.day →
      u.number ≠ t.number := by
  intro u hu husvc huday
  have humem : u ∈ scopeTickets db svc now.day :=
    List.mem_filter.mpr ⟨hu, by simp [husvc, huday]⟩
  cases hns : nextScopeNumber db svc now.day with
  | error e =>
    simp [modelSave, hns] at h
  | ok n =>
    have ht : t.number = some n := by
      simp [modelSave, hns] at h
      have h1 : (saveWrite db svc cid now n).1 = t := by rw [h]
      rw [← h1]
      rfl
    rw [ht]
    cases hmax : firstMaxByNumberKey (scopeTickets db svc now.day) with
    | none =>
      rw [firstMaxByNumberKey_none_iff.mp hmax] at humem
      simp at humem
    | some m =>
      have hub := firstMaxByNumberKey_ub hmax u humem
      cases hmn : m.number with
      | none =>
        simp [nextScopeNumber, hmax, hmn] at hns
      | some mm =>
        have hn : n = mm + 1 := by
          simp [nextScopeNumber, hmax, hmn] at hns
          omega
        rw [numberKey_some hmn] at hub
        cases hun : u.number with
        | none => simp
        | some j =>
          rw [numberKey_some hun] at hub
          simp
          omega

/-- Witness for C3 (amended): a creation on a scope already holding the
number 4 assigns 5, which differs from 4. -/
theorem sequential_creation_number_fresh_witness :
    (⟨1, 1, 1, some 4, Status.pending, ⟨0, 2⟩⟩ : Ticket).number ≠
      (⟨2, 1, 2, some 5, Status.pending, ⟨0, 9⟩⟩ : Ticket).number :=
  sequential_creation_number_fresh
    ⟨[⟨1, "Kiosk", "d", "KS", true, ⟨0, 0⟩⟩],
      [⟨1, 1, 1, some 4, Status.pending, ⟨0, 2⟩⟩], 2⟩ 1 2 ⟨0, 9⟩
    ⟨2, 1, 2, some 5, Status.pending, ⟨0, 9⟩⟩
    ⟨[⟨1, "Kiosk", "d", "KS", true, ⟨0, 0⟩⟩],
      [⟨1, 1, 1, some 4, Status.pending, ⟨0, 2⟩⟩,
       ⟨2, 1, 2, some 5, Status.pending, ⟨0, 9⟩⟩], 3⟩
    rfl ⟨1, 1, 1, some 4, Status.pending, ⟨0, 2⟩⟩
    (by decide) rfl rfl

/-- C8 (counterexample): when the store rejects the first write, the
view answers the 503 database-error response after exactly one attempt —
it does not retry, although a second attempt would have been accepted —
and no Conflict-style result exists. -/
theorem store_rejection_surfaces_immediately :
    viewCreate ⟨[⟨1, "Window", "d", "WN", true, ⟨0, 0⟩⟩], [], 1⟩ (some 1)
        [false, true] = (CreateResult.dbError, 1) ∧
    (viewCreate ⟨[⟨1, "Window", "d", "WN", true, ⟨0, 0⟩⟩], [], 1⟩ (some 1)
        [true]).1 = CreateResult.created "WN-0001" := by
  exact ⟨by decide, by decide⟩

/-- C8 (amended): a rejected store write surfaces as the raw 503
database-error response immediately, after a single write attempt; the
view contains no retry loop and no Conflict error kind. -/
theorem write_rejected_single_attempt (db : DB) (sid : Nat) (svc : Service)
    (num : String) (rest : List Bool)
    (hs : findService db sid = some svc)
    (hg : genTicketNumber svc.code (ticketNumAttr (latestByCreated db sid)) =
      Except.ok num) :
    viewCreate db (some sid) (false :: rest) = (CreateResult.dbError, 1) := by
  simp [viewCreate, hs, hg]

/-- Witness for C8 (amended) at a concrete store. -/
theorem write_rejected_single_attempt_witness :
    viewCreate ⟨[⟨4, "Records", "d", "RC", true, ⟨0, 0⟩⟩], [], 1⟩ (some 4)
        [false] = (CreateResult.dbError, 1) :=
  write_rejected_single_attempt
    ⟨[⟨4, "Records", "d", "RC", true, ⟨0, 0⟩⟩], [], 1⟩ 4
    ⟨4, "Records", "d", "RC", true, ⟨0, 0⟩⟩ "RC-0001" []
    (by decide) rfl
